import Mathlib

/-!
# Verification of the wisdom-index harvesting-and-qualification pipeline

Shallow embedding of the core of the `oomiyasa/wisdom-index` repository:

* the relevance classifiers (`BaseHarvester._contains_tacit_knowledge` in
  `src/harvesters/base_harvester.py` and `is_high_quality_content` in
  `src/filter_quality.py`),
* the retrying HTTP fetcher (`BaseHarvester._make_request`),
* the duplicate-search detector and harvest workflow (`src/harvester_main.py`),
* the per-subreddit harvest loop (`src/harvesters/reddit_harvester.py`),
* the output-schema mapping (`src/transform_wisdom_index_openai.py`).

Python strings are modelled as Lean `String`s (both count code points, and
`lower`, substring and length behave identically on the ASCII data involved).
-/

/-! ## Basic string operations (Python `in`, `lower`, `\b` word boundaries) -/

/-- Python substring test `needle in hay`.  Like Python, the empty needle is
contained in every string. -/
def strContains (hay needle : String) : Bool :=
  (List.range (hay.data.length + 1)).any (fun i => needle.data.isPrefixOf (hay.data.drop i))

/-- ASCII lowercasing of one character, as Python `str.lower` acts on the
ASCII data this pipeline handles. -/
def charLower (c : Char) : Char :=
  if 65 ≤ c.toNat && c.toNat ≤ 90 then Char.ofNat (c.toNat + 32) else c

/-- Python `s.lower()` (ASCII). -/
def strLower (s : String) : String := ⟨s.data.map charLower⟩

/-- Helper for `str.replace('_', r)`: rewrite every underscore to `r`. -/
def replaceUnderscoreChars (r : List Char) : List Char → List Char
  | [] => []
  | c :: cs => (if c == '_' then r else [c]) ++ replaceUnderscoreChars r cs

/-- Python `s.replace('_', r)`. -/
def replaceUnderscore (s r : String) : String := ⟨replaceUnderscoreChars r.data s.data⟩

/-- A regex word character for `\b`: `[a-zA-Z0-9_]` (the harvested text is
ASCII, so the Unicode extension of `\w` never fires). -/
def isWordChar (c : Char) : Bool := c.isAlphanum || c == '_'

/-- Character of `s` at index `i`, a non-word placeholder when out of range. -/
def charAt (s : List Char) (i : Nat) : Char := (s.drop i).headD ' '

/-- `re` word boundary `\b` holds before position `i` of `s`
(alternatives begin with word characters, so only the left context matters). -/
def boundaryBefore (s : List Char) (i : Nat) : Bool :=
  i == 0 || !(isWordChar (charAt s (i - 1)))

/-- `re` word boundary `\b` holds after position `j` of `s`. -/
def boundaryAfter (s : List Char) (j : Nat) : Bool :=
  j == s.length || !(isWordChar (charAt s j))

/-- The literal alternative `pat` matches at position `i` of `s` with `\b` on
both sides, as in `re.search(r'\b(...|pat|...)\b', s)`. -/
def matchTokenAt (pat s : List Char) (i : Nat) : Bool :=
  pat.isPrefixOf (s.drop i) && boundaryBefore s i && boundaryAfter s (i + pat.length)

/-- `re.search(r'\b(pat)\b', s) is not None` for a literal alternative `pat`. -/
def searchWordBounded (pat : String) (s : String) : Bool :=
  (List.range (s.data.length + 1)).any (fun i => matchTokenAt pat.data s.data i)

/-! ## `BaseHarvester._contains_tacit_knowledge`
(`src/harvesters/base_harvester.py`, lines 136-178) -/

/-- The keyword variant list built inside the keyword loop of
`_contains_tacit_knowledge`: the lowercased keyword with `_` kept, replaced by
a space, removed, and replaced by a hyphen. -/
def keywordVariants (kw : String) : List String :=
  [strLower kw,
   replaceUnderscore (strLower kw) " ",
   replaceUnderscore (strLower kw) "",
   replaceUnderscore (strLower kw) "-"]

/-- The keyword loop of `_contains_tacit_knowledge`: some configured keyword
has some variant occurring in the lowercased text. -/
def keywordGate (textLower : String) (keywords : List String) : Bool :=
  keywords.any (fun kw => (keywordVariants kw).any (fun v => strContains textLower v))

/-- The `tacit_patterns` regex list of `_contains_tacit_knowledge`, each
pattern `\b(a|b|...)\b` given as its list of literal alternatives. -/
def tacitPatterns : List (List String) :=
  [["pro tip", "tip", "trick", "hack", "workaround", "shortcut"],
   ["lesson learned", "learned that", "found that"],
   ["the key is", "the secret is", "the trick is"],
   ["my approach", "my method", "my strategy"],
   ["always", "never", "avoid", "make sure"],
   ["because", "so that", "reason", "works when"],
   ["wish i knew", "should have", "would have"],
   ["experience shows", "in practice", "actually works"],
   ["common mistake", "typical problem", "usual issue"],
   ["quick fix", "easy solution", "simple trick"]]

/-- The final pattern check of `_contains_tacit_knowledge`:
`any(re.search(pattern, text_lower) for pattern in tacit_patterns)`. -/
def tacitPatternGate (textLower : String) : Bool :=
  tacitPatterns.any (fun alts => alts.any (fun a => searchWordBounded a textLower))

/-- `BaseHarvester._contains_tacit_knowledge(text, keywords)`: empty text is
rejected; a keyword match returns `True` immediately; otherwise the tacit
pattern gate decides. -/
def containsTacitKnowledge (text : String) (keywords : List String) : Bool :=
  if text == "" then false
  else
    let textLower := strLower text
    if !keywords.isEmpty && keywordGate textLower keywords then true
    else tacitPatternGate textLower

/-! ## `is_high_quality_content` (`src/filter_quality.py`, lines 10-54) -/

/-- The `obvious_phrases` rejection list of `is_high_quality_content`. -/
def obviousPhrases : List String :=
  ["work hard", "be honest", "set boundaries", "communicate",
   "be professional", "be respectful", "be organized", "be prepared",
   "work life balance", "time management", "stress management",
   "be patient", "be persistent", "be confident", "be positive",
   "personal", "family", "relationship", "marriage", "dating",
   "health", "exercise", "diet", "sleep", "hobby", "vacation",
   "episode", "podcast", "show", "interview", "discussion", "conversation",
   "timestamps", "sponsor", "advertisement", "subscribe", "follow"]

/-- The `promising_indicators` list of `is_high_quality_content`. -/
def promisingIndicators : List String :=
  ["i use", "i found", "i learned", "i discovered", "i figured out",
   "the key is", "the trick is", "the secret is", "the hack is",
   "what works", "what i do", "my approach", "my method", "my technique",
   "i always", "i never", "i make sure", "i ensure", "i create",
   "i establish", "i set up", "i organize", "i structure", "i manage",
   "because", "reason", "works when", "avoid this", "instead of",
   "rather than", "instead", "alternative", "workaround", "solution",
   "experience", "lesson", "insight", "wisdom", "advice", "tip",
   "strategy", "approach", "method", "technique", "pattern",
   "learned", "discovered", "found", "realized", "figured out",
   "worked", "failed", "succeeded", "mistake", "success", "failure",
   "always", "never", "usually", "typically", "generally",
   "years of", "decades of", "since", "therefore", "so that",
   "in order to", "pro tip", "trick", "hack", "shortcut"]

/-- `is_high_quality_content(text)`: texts shorter than 50 characters are
rejected; then a hit in `obvious_phrases` rejects; otherwise accept when at
least one promising indicator occurs. -/
def isHighQualityContent (text : String) : Bool :=
  if text == "" || text.length < 50 then false
  else
    let textLower := strLower text
    if obviousPhrases.any (fun p => strContains textLower p) then false
    else decide (1 ≤ promisingIndicators.countP (fun i => strContains textLower i))

/-! ## `BaseHarvester._make_request` (`src/harvesters/base_harvester.py`,
lines 77-109)

The network environment is a map from the index of the HTTP GET call to its
outcome; the fetcher walks `for attempt in range(retries)`, with the recursion
below structured over the number of remaining loop iterations.  The returned
pair collects the durations passed to `time.sleep`, in order, next to the
overall result. -/

/-- Outcome of one `requests.get` call (after `raise_for_status`): a successful
response (its payload abstracted to a `Nat`), a timeout, a connection failure,
or an HTTP error status with the optional `Retry-After` header value. -/
inductive FetchOutcome where
  | success (v : Nat)
  | timeout
  | connFailure
  | httpError (status : Nat) (retryAfter : Option Nat)

/-- The retry loop of `_make_request`.  `r` counts the remaining iterations of
`for attempt in range(retries)` (so the loop index is `retries - r`), and
`call` indexes the next HTTP GET.  A timeout or connection failure on the last
iteration raises; otherwise it sleeps `2 ** attempt` and retries.  HTTP 429
sleeps the `Retry-After` value (default 60) and does `continue`, which still
advances the loop to its next iteration.  Any other HTTP error raises at
once.  Falling off the loop raises the final failure. -/
def makeRequestGo (env : Nat → FetchOutcome) (retries : Nat) :
    Nat → Nat → List Nat × Except String Nat
  | 0, _ => ([], .error s!"Request failed after {retries} attempts")
  | r + 1, call =>
    match env call with
    | .success v => ([], .ok v)
    | .timeout =>
      if r = 0 then ([], .error s!"Request timeout after {retries} attempts")
      else
        let rest := makeRequestGo env retries r (call + 1)
        (2 ^ (retries - (r + 1)) :: rest.1, rest.2)
    | .connFailure =>
      if r = 0 then ([], .error s!"Connection error after {retries} attempts")
      else
        let rest := makeRequestGo env retries r (call + 1)
        (2 ^ (retries - (r + 1)) :: rest.1, rest.2)
    | .httpError status retryAfter =>
      if status = 429 then
        let rest := makeRequestGo env retries r (call + 1)
        (retryAfter.getD 60 :: rest.1, rest.2)
      else ([], .error "Request failed")

/-- `BaseHarvester._make_request` with retry budget `retries` against the
network environment `env`: the sleep durations performed, and the result. -/
def makeRequest (env : Nat → FetchOutcome) (retries : Nat) :
    List Nat × Except String Nat :=
  makeRequestGo env retries retries 0

/-- A network that rate-limits the first call with `Retry-After: 30` and would
serve the second call successfully. -/
def rateLimitedEnv : Nat → FetchOutcome := fun call =>
  if call = 0 then .httpError 429 (some 30) else .success 7

/-- A network that serves every call successfully. -/
def immediateEnv : Nat → FetchOutcome := fun _ => .success 7

/-- A network that answers every call with HTTP 429 and `Retry-After: 10*c+5`
on the `c`-th call. -/
def always429Env : Nat → FetchOutcome := fun call => .httpError 429 (some (10 * call + 5))

/-! ## Python values

The search-history file holds JSON produced by `json.load`; configuration
sub-blocks come from YAML.  Both are modelled by `PyVal` (the shapes this
pipeline stores: strings, integers, lists, string-keyed dictionaries).
Operations that would raise a Python exception return `none`. -/

/-- A Python/JSON value as handled by the harvester: `int`, `str`, `list`
or string-keyed `dict` (in insertion order). -/
inductive PyVal where
  | int (n : Int)
  | str (s : String)
  | list (xs : List PyVal)
  | dict (kvs : List (String × PyVal))

mutual

/-- Python `==` on `PyVal` (structural). -/
def PyVal.beq : PyVal → PyVal → Bool
  | .int a, .int b => a == b
  | .str a, .str b => a == b
  | .list xs, .list ys => PyVal.beqList xs ys
  | .dict xs, .dict ys => PyVal.beqDict xs ys
  | _, _ => false

/-- Elementwise `PyVal.beq`. -/
def PyVal.beqList : List PyVal → List PyVal → Bool
  | [], [] => true
  | x :: xs, y :: ys => PyVal.beq x y && PyVal.beqList xs ys
  | _, _ => false

/-- Entrywise `PyVal.beq` on dictionary entries. -/
def PyVal.beqDict : List (String × PyVal) → List (String × PyVal) → Bool
  | [], [] => true
  | (k, x) :: xs, (l, y) :: ys => k == l && PyVal.beq x y && PyVal.beqDict xs ys
  | _, _ => false

end

instance : BEq PyVal := ⟨PyVal.beq⟩

mutual

/-- Python `str(v)` for the values above.  Strings are rendered in Python
`repr` form with single quotes (the history data contains no quotes or
backslashes, so no escaping arises). -/
def pyStr : PyVal → String
  | .int n => toString n
  | .str s => "'" ++ s ++ "'"
  | .list xs => "[" ++ pyStrJoin xs ++ "]"
  | .dict kvs => "\x7b" ++ pyStrJoinDict kvs ++ "\x7d"

/-- Comma-joined `repr`s of list elements. -/
def pyStrJoin : List PyVal → String
  | [] => ""
  | [x] => pyStr x
  | x :: y :: rest => pyStr x ++ ", " ++ pyStrJoin (y :: rest)

/-- Comma-joined `'key': value` renderings of dictionary entries. -/
def pyStrJoinDict : List (String × PyVal) → String
  | [] => ""
  | [(k, v)] => "'" ++ k ++ "': " ++ pyStr v
  | (k, v) :: e :: rest => "'" ++ k ++ "': " ++ pyStr v ++ ", " ++ pyStrJoinDict (e :: rest)

end

/-- First binding of key `k` in a dictionary's entry list. -/
def pyLookup (kvs : List (String × PyVal)) (k : String) : Option PyVal :=
  match kvs with
  | [] => none
  | (k', v) :: rest => if k' == k then some v else pyLookup rest k

/-- Python `v[k]` for a string key: defined on dictionaries holding the key,
exception (`KeyError`/`TypeError`) otherwise. -/
def pyIndex (v : PyVal) (k : String) : Option PyVal :=
  match v with
  | .dict kvs => pyLookup kvs k
  | _ => none

/-- Python `v.get(k, dflt)`: defined on dictionaries, `AttributeError`
otherwise. -/
def pyGetD (v : PyVal) (k : String) (dflt : PyVal) : Option PyVal :=
  match v with
  | .dict kvs => some ((pyLookup kvs k).getD dflt)
  | _ => none

/-- Python `k in v` for a string `k`: key membership in a dictionary,
element membership in a list, substring in a string; `TypeError` on an
integer. -/
def pyIn (k : String) (v : PyVal) : Option Bool :=
  match v with
  | .dict kvs => some (kvs.any (fun kv => kv.1 == k))
  | .list xs => some (xs.any (fun x => x == PyVal.str k))
  | .str s => some (strContains s k)
  | .int _ => none

/-- Distinct elements of a list, as `set(...)` collects them. -/
def pyDedup : List PyVal → List PyVal
  | [] => []
  | x :: xs =>
    let r := pyDedup xs
    if r.contains x then r else x :: r

/-- Python `set(v)`: the distinct elements of a list, the distinct
single-character strings of a string, the key set of a dictionary;
`TypeError` on an integer. -/
def pySet (v : PyVal) : Option (List PyVal) :=
  match v with
  | .list xs => some (pyDedup xs)
  | .str s => some (pyDedup (s.data.map (fun c => PyVal.str (String.mk [c]))))
  | .dict kvs => some (pyDedup (kvs.map (fun kv => PyVal.str kv.1)))
  | .int _ => none

/-- `len(a ∩ b)` for deduplicated element lists. -/
def overlapCard (a b : List PyVal) : Nat :=
  (a.filter (fun x => b.contains x)).length

/-! ## `HarvesterManager._is_duplicate_search`
(`src/harvester_main.py`, lines 166-212) -/

/-- The subreddit-dimension trigger: both sets non-empty and
`len(overlap) / max(len(a), len(b)) >= 0.7`.  The comparison is stated
exactly, as `10*|overlap| >= 7*max`; Python's float division agrees with
this rational comparison for every set size below 10^15. -/
def subredditOverlapFlag (a b : List PyVal) : Bool :=
  !a.isEmpty && !b.isEmpty &&
    decide (7 * max a.length b.length ≤ 10 * overlapCard a b)

/-- The keyword-dimension trigger: both sets non-empty and overlap
`>= 0.8`, stated as `10*|overlap| >= 8*max`. -/
def keywordOverlapFlag (a b : List PyVal) : Bool :=
  !a.isEmpty && !b.isEmpty &&
    decide (8 * max a.length b.length ≤ 10 * overlapCard a b)

/-- The Reddit block of `_is_duplicate_search` (lines 169-192): compare the
current subreddit set against `previous['sources']['reddit']` when present,
else against the legacy top-level `previous['subreddits']`. -/
def redditDimCheck (current previous : PyVal) : Option Bool := do
  let platforms ← pyIndex current "platforms"
  let redditCur ← pyIn "reddit" platforms
  let cond1 ←
    if redditCur then do
      let srcs ← pyGetD previous "sources" (.dict [])
      pyIn "reddit" srcs
    else pure false
  if cond1 then do
    let curSubs ← pySet (← pyIndex (← pyIndex (← pyIndex current "sources") "reddit") "subreddits")
    let prevSubs ← pySet (← pyGetD (← pyIndex (← pyIndex previous "sources") "reddit") "subreddits" (.list []))
    pure (subredditOverlapFlag curSubs prevSubs)
  else do
    let hasLegacy ← pyIn "subreddits" previous
    if hasLegacy && redditCur then do
      let curSubs ← pySet (← pyIndex (← pyIndex (← pyIndex current "sources") "reddit") "subreddits")
      let prevSubs ← pySet (← pyGetD previous "subreddits" (.list []))
      pure (subredditOverlapFlag curSubs prevSubs)
    else pure false

/-- Iteration of `site.get('name', '')` over the configured web sites
(the list comprehension in line 196). -/
def siteNames : List PyVal → Option (List PyVal)
  | [] => some []
  | s :: rest => do
    let n ← pyGetD s "name" (.str "")
    let ns ← siteNames rest
    pure (n :: ns)

/-- `any(site in ps for site in names)`, short-circuiting as Python's
`any`; `site in ps` is a `TypeError` unless the site name is a string. -/
def anySiteIn : List PyVal → String → Option Bool
  | [], _ => some false
  | n :: rest, ps =>
    match n with
    | .str s => if strContains ps s then some true else anySiteIn rest ps
    | _ => none

/-- The web block of `_is_duplicate_search` (lines 194-199): with web
enabled, flag when some current site name occurs as a substring of
`str(previous)`. -/
def webDimCheck (current previous : PyVal) : Option Bool := do
  let platforms ← pyIndex current "platforms"
  let webCur ← pyIn "web" platforms
  if webCur then do
    let sitesV ← pyIndex (← pyIndex (← pyIndex current "sources") "web") "sites"
    match sitesV with
    | .list sites => do
      let names ← siteNames sites
      if names.isEmpty then pure false
      else anySiteIn names (pyStr previous)
    | _ => none
  else pure false

/-- The keyword block of `_is_duplicate_search` (lines 201-210). -/
def keywordDimCheck (current previous : PyVal) : Option Bool := do
  let hasKw ← pyIn "keywords" previous
  if hasKw then do
    let curK ← pySet (← pyIndex current "keywords")
    let prevK ← pySet (← pyGetD previous "keywords" (.list []))
    pure (keywordOverlapFlag curK prevK)
  else pure false

/-- `HarvesterManager._is_duplicate_search(current, previous)`: the three
blocks in source order, each early-returning `True` when it flags, `False`
when none does; `none` models an uncaught exception. -/
def isDuplicateSearch (current previous : PyVal) : Option Bool := do
  let r ← redditDimCheck current previous
  if r then pure true
  else do
    let w ← webDimCheck current previous
    if w then pure true
    else do
      let k ← keywordDimCheck current previous
      if k then pure true else pure false

/-! ## Search history, duplicate check and workflow
(`src/harvester_main.py`, lines 63-117 and 333-367) -/

/-- The loop of `_check_for_duplicate_searches` (lines 111-115): collect, in
order, every previous search flagged by `_is_duplicate_search`. -/
def filterDup (current : PyVal) : List PyVal → Option (List PyVal)
  | [] => some []
  | s :: rest => do
    let b ← isDuplicateSearch current s
    let r ← filterDup current rest
    pure (if b then s :: r else r)

/-- State of the `search_history.json` file. -/
inductive HistoryFile where
  | missing
  | unparsable
  | parsed (searches : List PyVal)

/-- `HarvesterManager._load_search_history`: `None` when the file is missing
or the JSON parse raises (both failures are logged, never propagated);
otherwise the parsed history, abstracted to its `searches` list. -/
def loadSearchHistory : HistoryFile → Option (List PyVal)
  | .missing => none
  | .unparsable => none
  | .parsed searches => some searches

/-- `HarvesterManager._check_for_duplicate_searches`: `(False, [])` when no
history could be loaded, else the flagged previous searches together with
the flag telling whether any was found. -/
def checkForDuplicateSearches (current : PyVal) (file : HistoryFile) :
    Option (Bool × List PyVal) :=
  match loadSearchHistory file with
  | none => some (false, [])
  | some searches =>
    match filterDup current searches with
    | none => none
    | some dups => some (decide (0 < dups.length), dups)

/-- The YAML configuration, restricted to the fields
`_extract_current_search_config` reads.  The per-source `harvest` sub-blocks
are arbitrary configuration dictionaries, kept as `PyVal` entry lists. -/
structure Config where
  sourcesReddit : Bool
  sourcesWeb : Bool
  sourcesGithub : Bool
  sourcesStackexchange : Bool
  keywords : List String
  industryModifiers : List String
  redditSubreddits : List String
  redditHarvest : List (String × PyVal)
  webSites : List PyVal
  webHarvest : List (String × PyVal)
  githubRepos : List String
  githubHarvest : List (String × PyVal)
  stackexchangeSites : List String
  stackexchangeHarvest : List (String × PyVal)

/-- `HarvesterManager._extract_current_search_config` (lines 119-164): the
comparison record for the current run — enabled platforms in the fixed
reddit, web, github, stackexchange order, their descriptor lists and
harvest blocks, the keyword and industry-modifier lists, and the run
timestamp `ts`. -/
def extractCurrentSearchConfig (cfg : Config) (ts : String) : PyVal :=
  let platforms :=
    (if cfg.sourcesReddit then ["reddit"] else []) ++
    (if cfg.sourcesWeb then ["web"] else []) ++
    (if cfg.sourcesGithub then ["github"] else []) ++
    (if cfg.sourcesStackexchange then ["stackexchange"] else [])
  let redditEntry : PyVal := .dict
    [("subreddits", .list (cfg.redditSubreddits.map .str)),
     ("harvest", .dict cfg.redditHarvest),
     ("modes", (pyLookup cfg.redditHarvest "modes").getD (.list [])),
     ("comments", (pyLookup cfg.redditHarvest "comments").getD (.dict [])),
     ("filters", (pyLookup cfg.redditHarvest "filters").getD (.dict []))]
  let webEntry : PyVal := .dict
    [("sites", .list cfg.webSites),
     ("harvest", .dict cfg.webHarvest)]
  let githubEntry : PyVal := .dict
    [("repos", .list (cfg.githubRepos.map .str)),
     ("harvest", .dict cfg.githubHarvest)]
  let stackexchangeEntry : PyVal := .dict
    [("sites", .list (cfg.stackexchangeSites.map .str)),
     ("harvest", .dict cfg.stackexchangeHarvest)]
  let sources :=
    (if cfg.sourcesReddit then [("reddit", redditEntry)] else []) ++
    (if cfg.sourcesWeb then [("web", webEntry)] else []) ++
    (if cfg.sourcesGithub then [("github", githubEntry)] else []) ++
    (if cfg.sourcesStackexchange then [("stackexchange", stackexchangeEntry)] else [])
  .dict [("platforms", .list (platforms.map .str)),
         ("sources", .dict sources),
         ("keywords", .list (cfg.keywords.map .str)),
         ("industry_modifiers", .list (cfg.industryModifiers.map .str)),
         ("timestamp", .str ts)]

/-- `HarvesterManager.harvest_all` (lines 299-314): every initialized
platform is attempted in order; a raised harvest error is caught and that
platform is recorded with an empty result list.  `α` is the record type of
one harvested item. -/
def harvestAll {α : Type} (harvests : List (String × Except String (List α))) :
    List (String × List α) :=
  harvests.map (fun h => (h.1,
    match h.2 with
    | .ok items => items
    | .error _ => []))

/-- `HarvesterManager._save_search_history` (lines 79-102): reload the
history (or start an empty one), append the current configuration extended
with the total result count, and write the file back. -/
def saveSearchHistory {α : Type} (file : HistoryFile) (cfg : Config) (ts : String)
    (results : List (String × List α)) : HistoryFile :=
  let history := (loadSearchHistory file).getD []
  let total : Nat := (results.map (fun r => r.2.length)).sum
  let entry :=
    match extractCurrentSearchConfig cfg ts with
    | .dict kvs => PyVal.dict (kvs ++ [("results_count", .int (total : Int))])
    | v => v
  .parsed (history ++ [entry])

/-- The three menu answers accepted by `_prompt_user_for_guidance`
(lines 214-247; the prompt repeats until one of them is given). -/
inductive OperatorChoice where
  | continueAnyway
  | modifyConfig
  | cancel

/-- `_prompt_user_for_guidance`'s return value: only choice 1 proceeds. -/
def promptProceed : OperatorChoice → Bool
  | .continueAnyway => true
  | .modifyConfig => false
  | .cancel => false

/-- `HarvesterManager.run_workflow` (lines 333-367): the duplicate gate,
then harvesting, saving raw data (file I/O, not modelled) and appending the
run to the search history.  Returns the per-platform results together with
the final state of the history file; `none` models an uncaught exception. -/
def runWorkflow {α : Type} (cfg : Config) (ts : String) (file : HistoryFile)
    (choice : OperatorChoice) (harvests : List (String × Except String (List α))) :
    Option (List (String × List α) × HistoryFile) := do
  let check ← checkForDuplicateSearches (extractCurrentSearchConfig cfg ts) file
  if check.1 && !promptProceed choice then
    pure ([], file)
  else
    let results := harvestAll harvests
    pure (results, saveSearchHistory file cfg ts results)

/-! ## `RedditHarvester.harvest`
(`src/harvesters/reddit_harvester.py`, lines 36-62) -/

/-- The per-subreddit loop of `RedditHarvester.harvest`: each configured
subreddit's results are appended in order; an exception from one subreddit
is caught at the loop (`except ... continue`) and that subreddit
contributes nothing.  `env` maps a subreddit name to its harvest outcome. -/
def redditHarvest {α : Type} (env : String → Except String (List α))
    (subreddits : List String) : List α :=
  subreddits.foldl (fun acc name =>
    match env name with
    | .ok items => acc ++ items
    | .error _ => acc) []

/-! ## `process_row` (`src/transform_wisdom_index_openai.py`, lines 36-56
and 100-191) -/

/-- The fixed 19-column output schema `COLUMNS`. -/
def COLUMNS : List String :=
  ["description", "rationale", "use_case", "impact_area",
   "transferability_score", "actionability_rating", "evidence_strength",
   "type_(form)", "tag_(application)", "unique?", "role", "function",
   "company", "industry", "country", "date",
   "source_(interview_#/_name)", "link", "notes"]

/-- The closed `VALID_TYPES` set for the `type_(form)` column. -/
def VALID_TYPES : List String :=
  ["pattern", "warning", "rule-of-thumb", "cue", "workaround", "checklist item"]

/-- The `obvious_phrases` pre-filter list of `process_row`. -/
def transformObviousPhrases : List String :=
  ["work hard", "be honest", "set boundaries", "communicate",
   "be professional", "be respectful", "be organized", "be prepared",
   "work life balance", "time management", "stress management",
   "be patient", "be persistent", "be confident", "be positive"]

/-- The `personal_phrases` pre-filter list of `process_row`. -/
def transformPersonalPhrases : List String :=
  ["personal", "family", "relationship", "marriage", "dating",
   "health", "exercise", "diet", "sleep", "hobby", "vacation"]

/-- The `generic_rationales` rejection list of `process_row`. -/
def genericRationales : List String :=
  ["it's important", "it's essential", "it's necessary", "it's good practice",
   "it helps", "it works", "it's effective", "it's beneficial",
   "because it's right", "because it's professional", "because it's ethical"]

/-- The directive-verb tuple the output description must start with. -/
def directiveVerbs : List String :=
  ["avoid", "use", "track", "document", "create", "establish",
   "schedule", "prioritize", "reduce", "require"]

/-- Python `s.strip()`. -/
def pyStrip (s : String) : String :=
  ⟨((s.data.dropWhile (fun c => c.isWhitespace)).reverse.dropWhile
      (fun c => c.isWhitespace)).reverse⟩

/-- Python `s.count(' ')`. -/
def countSpaces (s : String) : Nat := s.data.countP (fun c => c == ' ')

/-- Python `s.startswith(tuple)`. -/
def startsWithAnyOf (s : String) (ps : List String) : Bool :=
  ps.any (fun p => p.data.isPrefixOf s.data)

/-- Outcome of the one-shot external extraction call inside `process_row`:
an API error (every `except` arm returns `None`), a reply containing
`DISCARD`, a reply that is not valid JSON, or the parsed JSON value. -/
inductive LlmReply where
  | apiFailure
  | discard
  | unparsable
  | parsed (obj : PyVal)

/-- The dictionary comprehension `{col: obj.get(col, "nan") for col in
COLUMNS}` of `process_row`. -/
def mapToSchema (kvs : List (String × PyVal)) : List (String × PyVal) :=
  COLUMNS.map (fun c => (c, (pyLookup kvs c).getD (PyVal.str "nan")))

/-- The early-return validation chain that `process_row` runs on the mapped
result, conjoined in source order (each arm that would `return None`
becomes `false`; a `.lower()`/`.startswith` call on a non-string field
raises and is caught, also yielding `None`): the description must start with
a directive verb, the use case hold fewer than 6 spaces, the form type lie
in `VALID_TYPES` after strip/lower, both scores be the integers 1–5, and the
rationale be a 50-character-plus string free of generic phrases. -/
def passesOutputChecks (getCol : String → PyVal) : Bool :=
  (match getCol "description" with
   | .str d => startsWithAnyOf (strLower d) directiveVerbs
   | _ => false) &&
  (match getCol "use_case" with
   | .str uc => decide (countSpaces uc < 6)
   | _ => false) &&
  (match getCol "type_(form)" with
   | .str tf => VALID_TYPES.contains (strLower (pyStrip tf))
   | _ => false) &&
  [1, 2, 3, 4, 5].any (fun n => getCol "transferability_score" == PyVal.int n) &&
  [1, 2, 3, 4, 5].any (fun n => getCol "actionability_rating" == PyVal.int n) &&
  (match getCol "rationale" with
   | .str ra =>
     decide (50 ≤ (strLower ra).length) &&
     !(genericRationales.any (fun p => strContains (strLower ra) p))
   | _ => false)

/-- `process_row(row)`: `row` is the input CSV record (string fields),
`reply` the collaborator's response.  `none` is Python's `None` — the row is
discarded, whether by an explicit `return None` or by a caught exception.
The input description must be present, 90 characters or longer, and free of
the obvious/personal phrase lists; the reply must be parsed JSON object
content (an API failure, a `DISCARD` reply, unparsable JSON, and a non-dict
JSON value each yield `None` through their `except`/check arms); the mapped
19-column record is returned when it passes the validation chain. -/
def processRow (row : List (String × String)) (reply : LlmReply) :
    Option (List (String × PyVal)) :=
  match row.lookup "description" with
  | none => none
  | some desc =>
    if desc == "" || desc.length < 90 then none
    else if transformObviousPhrases.any (fun p => strContains (strLower desc) p) then none
    else if transformPersonalPhrases.any (fun p => strContains (strLower desc) p) then none
    else
      match reply with
      | .parsed (.dict kvs) =>
        if passesOutputChecks (fun c => (pyLookup kvs c).getD (PyVal.str "nan")) then
          some (mapToSchema kvs)
        else none
      | _ => none


/-! ## Concrete instances used by the claim witnesses -/

/-- The duplicate trigger exactly as the claim states it, for comparison
with `isDuplicateSearch`: descriptor-set overlap ratio at least 0.70, or
keyword-set overlap ratio at least 0.80, over the given descriptor and
keyword sets (boundaries inclusive). -/
def specDuplicateFlag (curSubs prevSubs curKws prevKws : List String) : Bool :=
  subredditOverlapFlag (pyDedup (curSubs.map .str)) (pyDedup (prevSubs.map .str)) ||
  keywordOverlapFlag (pyDedup (curKws.map .str)) (pyDedup (prevKws.map .str))

/-- A current configuration with reddit subreddit `a`, keyword `k1`, and the
web source enabled with one site dictionary that has no `name` key. -/
def webNoNameConfig : Config :=
  ⟨true, true, false, false, ["k1"], [], ["a"], [], [PyVal.dict []], [], [], [], [], []⟩

/-- A previous run with subreddit `x` and keyword `k2` — disjoint from
`webNoNameConfig` on both claimed dimensions. -/
def prevRun : PyVal := .dict
  [("platforms", .list [.str "reddit"]),
   ("sources", .dict [("reddit", .dict [("subreddits", .list [.str "x"])])]),
   ("keywords", .list [.str "k2"]),
   ("timestamp", .str "2024-01-01T00:00:00")]

/-- A configuration and history that trigger the duplicate prompt: both use
exactly the subreddit `a`. -/
def dupConfig : Config :=
  ⟨true, false, false, false, [], [], ["a"], [], [], [], [], [], [], []⟩

/-- The stored previous run matching `dupConfig` on its subreddit set. -/
def prevDup : PyVal := .dict
  [("sources", .dict [("reddit", .dict [("subreddits", .list [.str "a"])])]),
   ("keywords", .list [])]

/-- A search history containing exactly `prevDup`. -/
def dupHistory : HistoryFile := .parsed [prevDup]

/-- A network where subreddit `beta` fails and the others succeed. -/
def isolationEnv : String → Except String (List Nat) := fun name =>
  if name == "beta" then .error "network" else
  if name == "alpha" then .ok [1, 2] else .ok [3]

/-- A harvested CSV row whose description survives the pre-filters. -/
def sampleInputRow : List (String × String) :=
  [("description", "Use torque wrench calibration records to spot drift early because bearings degrade quietly over months of operation")]

/-- A collaborator reply giving 6 of the 19 columns. -/
def sampleReplyObj : List (String × PyVal) :=
  [("description", .str "Use torque wrench calibration logs to catch drift"),
   ("rationale", .str "bearing wear produces measurable torque drift long before audible symptoms appear in the field"),
   ("use_case", .str "preventive maintenance scheduling"),
   ("type_(form)", .str " Pattern "),
   ("transferability_score", .int 3),
   ("actionability_rating", .int 4)]

/-! ## Claims C1, C3, C4, C5 -/

/-- Helper: the sleeps and result of the retry loop against an all-429
network: every remaining iteration sleeps its `Retry-After` value and retries,
and the loop then falls through to the final failure. -/
theorem makeRequestGo_all429 (retries : Nat) (d : Nat → Nat) :
    ∀ r call, makeRequestGo (fun c => .httpError 429 (some (d c))) retries r call =
      ((List.range' call r).map d, .error s!"Request failed after {retries} attempts") := by
  intro r
  induction r with
  | zero => intro call; rfl
  | succ r ih =>
    intro call
    simp [makeRequestGo, ih (call + 1), List.range'_succ]

/-- C1 (counterexample): `_contains_tacit_knowledge` accepts a text that
contains none of the configured keywords (nor any variant of one), because it
matches the tacit pattern `\b(always|...)\b`; a keyword match is therefore not
necessary for acceptance, contrary to the claim. -/
theorem claim_C1_counterexample :
    containsTacitKnowledge "always test the backup restore path" ["kubernetes"] = true ∧
    keywordGate (strLower "always test the backup restore path") ["kubernetes"] = false := by
  decide

/-- C1 (amended): in `_contains_tacit_knowledge` a keyword match is sufficient
but not necessary: whenever no variant of a configured keyword occurs in the
lowercased text, the verdict equals the tacit-pattern gate alone (with empty
text still rejected). -/
theorem claim_C1_keyword_not_necessary (text : String) (keywords : List String)
    (h : keywordGate (strLower text) keywords = false) :
    containsTacitKnowledge text keywords =
      (!(text == "") && tacitPatternGate (strLower text)) := by
  unfold containsTacitKnowledge
  cases he : (text == "") with
  | true => simp [he]
  | false => simp [he, h]

/-- C1 witness: a keyword-free text that the pattern gate accepts. -/
theorem claim_C1_witness :
    keywordGate (strLower "we should have rolled back sooner") ["zzkw"] = false ∧
    containsTacitKnowledge "we should have rolled back sooner" ["zzkw"] =
      (!(("we should have rolled back sooner" : String) == "") &&
        tacitPatternGate (strLower "we should have rolled back sooner")) :=
  ⟨by decide, claim_C1_keyword_not_necessary "we should have rolled back sooner" ["zzkw"] (by decide)⟩

/-- C3 (counterexample): with a retry budget of 1, a single HTTP 429 response
sleeps its `Retry-After: 30` and retries, but that retry consumed the whole
budget — the fetch fails even though the very next call would have succeeded,
while the same budget succeeds when no 429 occurs.  The rate-limit retry
therefore does count against the `retries` budget, contrary to the claim. -/
theorem claim_C3_counterexample :
    makeRequest rateLimitedEnv 1 = ([30], .error "Request failed after 1 attempts") ∧
    makeRequest immediateEnv 1 = ([], .ok 7) :=
  ⟨rfl, rfl⟩

/-- C3 (amended): on HTTP 429 the fetcher sleeps for the `Retry-After` header
value — defaulting to 60 seconds when the header is absent — and retries, but
each such retry consumes one attempt of the shared `retries` budget: a network
that always answers 429 exhausts the budget after exactly `retries` attempts,
sleeping each announced value once. -/
theorem claim_C3_rate_limit_budget :
    (∀ (retries : Nat) (d : Nat → Nat),
        makeRequest (fun c => .httpError 429 (some (d c))) retries =
          ((List.range retries).map d,
            .error s!"Request failed after {retries} attempts")) ∧
    (∀ (env : Nat → FetchOutcome) (retries : Nat), 0 < retries →
        env 0 = .httpError 429 none →
        (makeRequest env retries).1.head? = some 60) := by
  constructor
  · intro retries d
    rw [makeRequest, makeRequestGo_all429, List.range_eq_range']
  · intro env retries hpos h0
    obtain ⟨r, rfl⟩ : ∃ r, retries = r + 1 :=
      ⟨retries - 1, (Nat.succ_pred_eq_of_pos hpos).symm⟩
    simp only [makeRequest, makeRequestGo, h0]
    rfl

/-- C3 witness: two consecutive 429 responses with `Retry-After` 5 and 15
exhaust a budget of 2, and an absent header sleeps the 60-second default. -/
theorem claim_C3_witness :
    makeRequest always429Env 2 =
      ((List.range 2).map (fun c => 10 * c + 5),
        .error "Request failed after 2 attempts") ∧
    (makeRequest (fun _ => .httpError 429 none) 1).1.head? = some 60 :=
  ⟨claim_C3_rate_limit_budget.1 2 (fun c => 10 * c + 5),
   claim_C3_rate_limit_budget.2 (fun _ => .httpError 429 none) 1 (by decide) rfl⟩

/-- C4 (counterexample): `_contains_tacit_knowledge` accepts the 7-character
text `"pro tip"`, so the 50-character minimum-length rejection does not hold
at this classifier entry point. -/
theorem claim_C4_counterexample :
    "pro tip".length < 50 ∧ containsTacitKnowledge "pro tip" [] = true := by
  decide

/-- C4 (amended): the 50-character minimum-length rejection holds for
`is_high_quality_content`, but `_contains_tacit_knowledge` rejects only the
empty text unconditionally — it applies no minimum length. -/
theorem claim_C4_min_length :
    (∀ text : String, text.length < 50 → isHighQualityContent text = false) ∧
    (∀ keywords : List String, containsTacitKnowledge "" keywords = false) := by
  constructor
  · intro t h
    unfold isHighQualityContent
    simp [h]
  · intro keywords
    rfl

/-- C4 witness: a 4-character text is rejected by `is_high_quality_content`,
and the empty text by `_contains_tacit_knowledge`. -/
theorem claim_C4_witness :
    "tiny".length < 50 ∧ isHighQualityContent "tiny" = false ∧
    containsTacitKnowledge "" ["kw"] = false :=
  ⟨by decide, claim_C4_min_length.1 "tiny" (by decide), claim_C4_min_length.2 ["kw"]⟩

/-- C5: any text containing a phrase of the `obvious_phrases` rejection list
is rejected by `is_high_quality_content`, regardless of how many promising
indicators it also contains — the rejection list wins. -/
theorem claim_C5_rejection_precedence (text p : String)
    (hp : p ∈ obviousPhrases) (h : strContains (strLower text) p = true) :
    isHighQualityContent text = false := by
  unfold isHighQualityContent
  by_cases h0 : (text == "" || decide (text.length < 50)) = true
  · simp [h0]
  · have hany : obviousPhrases.any (fun q => strContains (strLower text) q) = true :=
      List.any_eq_true.mpr ⟨p, hp, h⟩
    simp [h0, hany]

/-- C5 witness: a long text containing both the rejected phrase `"family"`
and the promising indicator `"the key is"` is rejected. -/
theorem claim_C5_witness :
    ("family" ∈ obviousPhrases ∧
      strContains (strLower "the key is to spend time with family every week no matter the workload") "family" = true) ∧
    isHighQualityContent "the key is to spend time with family every week no matter the workload" = false :=
  ⟨⟨by decide, by decide⟩,
   claim_C5_rejection_precedence _ "family" (by decide) (by decide)⟩

/-! ## Claims C2, C6, C7, C8, C10 -/

set_option maxRecDepth 8000 in
/-- C2 (counterexample): the detector flags a previous run whose descriptor
overlap (0) and keyword overlap (0) are both below threshold, because the
web block's `site.get('name', '')` yields the empty string for a site
dictionary without a name, and `'' in str(previous)` holds for every
previous run.  Flagging is therefore not equivalent to the two claimed
overlap dimensions. -/
theorem claim_C2_counterexample :
    isDuplicateSearch (extractCurrentSearchConfig webNoNameConfig "2024-02-02T00:00:00") prevRun = some true ∧
    specDuplicateFlag ["a"] ["x"] ["k1"] ["k2"] = false := by
  decide

/-- C2 (amended): when `_is_duplicate_search` returns without an exception,
it flags a previous run iff one of its three dimensions triggers — the
subreddit-overlap block (ratio ≥ 0.70, boundary inclusive, including its
legacy-format arm), the web block (a current site name occurring in
`str(previous)`), or the keyword-overlap block (ratio ≥ 0.80, boundary
inclusive) — a union, not an intersection, of triggers; and
`_check_for_duplicate_searches` returns the list of all flagged previous
runs, in order, not just the first. -/
theorem claim_C2_union_of_dimensions :
    (∀ current previous b, isDuplicateSearch current previous = some b →
      (b = true ↔ (redditDimCheck current previous = some true ∨
        webDimCheck current previous = some true ∨
        keywordDimCheck current previous = some true))) ∧
    (∀ current searches dups, filterDup current searches = some dups →
      dups = searches.filter (fun s => isDuplicateSearch current s == some true)) := by
  constructor
  · intro current previous b h
    unfold isDuplicateSearch at h
    rcases hr : redditDimCheck current previous with _ | r <;> rw [hr] at h
    · simp at h
    · rcases r with _ | _
      · rcases hw : webDimCheck current previous with _ | w <;> rw [hw] at h
        · simp at h
        · rcases w with _ | _
          · rcases hk : keywordDimCheck current previous with _ | k <;> rw [hk] at h
            · simp at h
            · rcases k with _ | _
              · simp at h
                simp [← h, hr, hw, hk]
              · simp at h
                simp [← h, hk]
          · simp at h
            simp [← h, hw]
      · simp at h
        simp [← h, hr]
  · intro current searches
    induction searches with
    | nil =>
      intro dups h
      simp [filterDup] at h
      subst h
      rfl
    | cons s rest ih =>
      intro dups h
      unfold filterDup at h
      rcases hb : isDuplicateSearch current s with _ | b <;> rw [hb] at h
      · simp at h
      · rcases hrest : filterDup current rest with _ | r <;> rw [hrest] at h
        · simp at h
        · simp at h
          rw [← h, List.filter_cons, ih r hrest]
          cases b <;> simp [hb]

set_option maxRecDepth 8000 in
/-- C2 witness: on the counterexample pair the flag is produced by one of
the three dimensions (the web block). -/
theorem claim_C2_witness :
    redditDimCheck (extractCurrentSearchConfig webNoNameConfig "2024-02-02T00:00:00") prevRun = some true ∨
    webDimCheck (extractCurrentSearchConfig webNoNameConfig "2024-02-02T00:00:00") prevRun = some true ∨
    keywordDimCheck (extractCurrentSearchConfig webNoNameConfig "2024-02-02T00:00:00") prevRun = some true :=
  (claim_C2_union_of_dimensions.1 _ prevRun true (by decide)).mp rfl

/-- C6: if the duplicate check reports duplicates and the operator declines
(choice 2 or 3), `run_workflow` returns the empty result mapping, harvests
nothing, and leaves the search-history file unchanged — no run record is
appended. -/
theorem claim_C6_abort {α : Type} (cfg : Config) (ts : String) (file : HistoryFile)
    (choice : OperatorChoice) (harvests : List (String × Except String (List α)))
    (dups : List PyVal)
    (hdup : checkForDuplicateSearches (extractCurrentSearchConfig cfg ts) file = some (true, dups))
    (hdecline : promptProceed choice = false) :
    runWorkflow cfg ts file choice harvests = some ([], file) := by
  unfold runWorkflow
  rw [hdup]
  simp [hdecline]

set_option maxRecDepth 8000 in
/-- C6 witness: a concrete duplicate-flagged run aborted by choice 3. -/
theorem claim_C6_witness :
    checkForDuplicateSearches (extractCurrentSearchConfig dupConfig "2024-03-03") dupHistory =
      some (true, [prevDup]) ∧
    promptProceed .cancel = false ∧
    runWorkflow dupConfig "2024-03-03" dupHistory .cancel
        ([("reddit", Except.ok [1])] : List (String × Except String (List Nat))) =
      some ([], dupHistory) :=
  ⟨by rfl, rfl,
   claim_C6_abort dupConfig "2024-03-03" dupHistory .cancel _ [prevDup] (by rfl) rfl⟩

/-- C7 (counterexample): a family whose harvest raised an error and a family
that succeeded with zero matches are reported identically — both as an
empty item list with no reason category — so the two are not distinguishable
in the per-family result summary. -/
theorem claim_C7_counterexample :
    harvestAll [("github", Except.error "all requests failed"),
                ("medium", Except.ok ([] : List Nat))] =
      [("github", []), ("medium", [])] ∧
    (harvestAll [("github", Except.error "all requests failed"),
                 ("medium", Except.ok ([] : List Nat))]).lookup "github" =
      (harvestAll [("github", Except.error "all requests failed"),
                   ("medium", Except.ok ([] : List Nat))]).lookup "medium" :=
  ⟨rfl, rfl⟩

/-- C7 (amended): the per-family summary lists exactly the attempted
families (a family not attempted is distinguishable by its absence from the
mapping), but a family whose harvest raised an error is recorded as an empty
list, exactly like a family that succeeded with zero matches — the error
reason appears only in the log, not in the summary. -/
theorem claim_C7_family_reporting {α : Type} :
    (∀ harvests : List (String × Except String (List α)),
        (harvestAll harvests).map Prod.fst = harvests.map Prod.fst) ∧
    (∀ (harvests : List (String × Except String (List α))) (name e : String),
        (name, Except.error e) ∈ harvests → (name, ([] : List α)) ∈ harvestAll harvests) ∧
    (∀ (harvests : List (String × Except String (List α))) (name : String),
        (name, Except.ok ([] : List α)) ∈ harvests → (name, ([] : List α)) ∈ harvestAll harvests) := by
  refine ⟨fun harvests => ?_, fun harvests name e h => ?_, fun harvests name h => ?_⟩
  · simp [harvestAll]
  · exact List.mem_map.mpr ⟨(name, Except.error e), h, rfl⟩
  · exact List.mem_map.mpr ⟨(name, Except.ok []), h, rfl⟩

/-- C7 witness: both reporting facts at a concrete two-family run. -/
theorem claim_C7_witness :
    (harvestAll [("github", Except.error "boom"), ("medium", Except.ok ([] : List Nat))]).map Prod.fst =
      ["github", "medium"] ∧
    ("github", ([] : List Nat)) ∈
      harvestAll [("github", Except.error "boom"), ("medium", Except.ok ([] : List Nat))] ∧
    ("medium", ([] : List Nat)) ∈
      harvestAll [("github", Except.error "boom"), ("medium", Except.ok ([] : List Nat))] :=
  ⟨(claim_C7_family_reporting.1 _).trans rfl,
   claim_C7_family_reporting.2.1 _ "github" "boom" (by simp),
   claim_C7_family_reporting.2.2 _ "medium" (by simp)⟩

/-- Folding the per-subreddit loop from any accumulator appends the loop's
own contribution. -/
theorem redditHarvest_go {α : Type} (env : String → Except String (List α))
    (acc : List α) (l : List String) :
    l.foldl (fun a name =>
      match env name with
      | .ok items => a ++ items
      | .error _ => a) acc = acc ++ redditHarvest env l := by
  induction l generalizing acc with
  | nil => simp [redditHarvest]
  | cons name rest ih =>
    cases h : env name with
    | ok items =>
      simp only [redditHarvest, List.foldl_cons, h, List.nil_append]
      rw [ih (acc ++ items), ih items, List.append_assoc]
    | error e =>
      simp only [redditHarvest, List.foldl_cons, h]
      rw [ih acc, ih ([] : List α)]
      simp

/-- Harvesting a concatenation of descriptor lists concatenates the
results. -/
theorem redditHarvest_append {α : Type} (env : String → Except String (List α))
    (xs ys : List String) :
    redditHarvest env (xs ++ ys) = redditHarvest env xs ++ redditHarvest env ys := by
  unfold redditHarvest
  rw [List.foldl_append, redditHarvest_go]
  rfl

/-- C8: if harvesting descriptor `b` raises, the records already collected
from the preceding descriptors remain in the output and all following
descriptors are still harvested — exactly as if `b` had not been listed. -/
theorem claim_C8_descriptor_isolation {α : Type} (env : String → Except String (List α))
    (pre post : List String) (b e : String) (hb : env b = .error e) :
    redditHarvest env (pre ++ b :: post) = redditHarvest env pre ++ redditHarvest env post := by
  rw [redditHarvest_append]
  congr 1
  have hsingle : redditHarvest env [b] = [] := by
    simp [redditHarvest, hb]
  have : b :: post = [b] ++ post := rfl
  rw [this, redditHarvest_append, hsingle, List.nil_append]

/-- C8 witness: `beta`'s failure loses only `beta`'s records. -/
theorem claim_C8_witness :
    isolationEnv "beta" = .error "network" ∧
    redditHarvest isolationEnv (["alpha"] ++ "beta" :: ["gamma"]) =
      redditHarvest isolationEnv ["alpha"] ++ redditHarvest isolationEnv ["gamma"] ∧
    redditHarvest isolationEnv ["alpha", "beta", "gamma"] = [1, 2, 3] :=
  ⟨rfl,
   claim_C8_descriptor_isolation isolationEnv ["alpha"] ["gamma"] "beta" "network" rfl,
   rfl⟩

/-- C10: when the search-history file is missing or cannot be parsed, the
duplicate check reports `(False, [])` without raising, and the workflow
proceeds straight to harvesting for every operator choice — the prompt is
never consulted. -/
theorem claim_C10_missing_history {α : Type} (cfg : Config) (ts : String)
    (file : HistoryFile) (choice : OperatorChoice)
    (harvests : List (String × Except String (List α)))
    (h : file = .missing ∨ file = .unparsable) :
    checkForDuplicateSearches (extractCurrentSearchConfig cfg ts) file = some (false, []) ∧
    runWorkflow cfg ts file choice harvests =
      some (harvestAll harvests, saveSearchHistory file cfg ts (harvestAll harvests)) := by
  have hload : loadSearchHistory file = none := by
    rcases h with rfl | rfl <;> rfl
  have hcheck : checkForDuplicateSearches (extractCurrentSearchConfig cfg ts) file =
      some (false, []) := by
    unfold checkForDuplicateSearches
    rw [hload]
  refine ⟨hcheck, ?_⟩
  unfold runWorkflow
  rw [hcheck]
  simp

/-- C10 witness: a missing history file with a cancelling operator still
harvests and saves. -/
theorem claim_C10_witness :
    checkForDuplicateSearches (extractCurrentSearchConfig dupConfig "2024-04-04") .missing =
      some (false, []) ∧
    runWorkflow dupConfig "2024-04-04" HistoryFile.missing OperatorChoice.cancel
        ([("reddit", Except.ok [5])] : List (String × Except String (List Nat))) =
      some (harvestAll [("reddit", Except.ok [5])],
        saveSearchHistory HistoryFile.missing dupConfig "2024-04-04"
          (harvestAll [("reddit", Except.ok [5])])) :=
  claim_C10_missing_history dupConfig "2024-04-04" .missing .cancel _ (Or.inl rfl)

/-! ## Claim C9 -/

/-- Looking a key up in a key-indexed map of itself yields its image. -/
theorem lookup_map_self {β : Type} (f : String → β) (cs : List String)
    (c : String) (hc : c ∈ cs) :
    (cs.map (fun k => (k, f k))).lookup c = some (f c) := by
  induction cs with
  | nil => cases hc
  | cons k rest ih =>
    cases hkc : c == k with
    | true =>
      have hck : c = k := eq_of_beq hkc
      subst hck
      simp [List.lookup]
    | false =>
      have hmem : c ∈ rest := by
        rcases List.mem_cons.mp hc with rfl | hmem
        · simp at hkc
        · exact hmem
      simp only [List.map_cons, List.lookup, hkc]
      exact ih hmem

/-- The mapped record's keys are exactly the 19 schema columns. -/
theorem mapToSchema_keys (kvs : List (String × PyVal)) :
    (mapToSchema kvs).map Prod.fst = COLUMNS := rfl

/-- The mapped record has 19 entries. -/
theorem mapToSchema_length (kvs : List (String × PyVal)) :
    (mapToSchema kvs).length = 19 := rfl

/-- A column absent from the collaborator's object is mapped to `"nan"`. -/
theorem mapToSchema_nan (kvs : List (String × PyVal)) (c : String)
    (hc : c ∈ COLUMNS) (hmiss : pyLookup kvs c = none) :
    (mapToSchema kvs).lookup c = some (.str "nan") := by
  unfold mapToSchema
  rw [lookup_map_self _ COLUMNS c hc, hmiss]
  rfl

/-- Any emitted row of `process_row` is the schema mapping of the parsed
reply object. -/
theorem processRow_spec (row : List (String × String)) (reply : LlmReply)
    (out : List (String × PyVal)) (h : processRow row reply = some out) :
    ∃ kvs, reply = .parsed (.dict kvs) ∧ out = mapToSchema kvs := by
  unfold processRow at h
  repeat' split at h
  all_goals try exact Option.noConfusion h
  rename_i kvs hpass
  exact ⟨kvs, rfl, (Option.some.inj h).symm⟩

/-- C9: every row emitted by `process_row` has exactly the 19 schema columns
in order — none missing, none extra — and any column absent from the
collaborator's reply object carries the placeholder `"nan"`. -/
theorem claim_C9_schema (row : List (String × String)) (reply : LlmReply)
    (out : List (String × PyVal)) (h : processRow row reply = some out) :
    out.map Prod.fst = COLUMNS ∧ out.length = 19 ∧
    (∀ kvs, reply = .parsed (.dict kvs) →
      ∀ c ∈ COLUMNS, pyLookup kvs c = none → out.lookup c = some (.str "nan")) := by
  obtain ⟨kvs, hreply, hout⟩ := processRow_spec row reply out h
  subst hout
  refine ⟨mapToSchema_keys kvs, mapToSchema_length kvs, ?_⟩
  intro kvs' hk c hc hmiss
  rw [hreply] at hk
  injection hk with hk1
  injection hk1 with hk2
  subst hk2
  exact mapToSchema_nan kvs c hc hmiss

/-- C9 witness: the sample row is emitted with all 19 columns, the absent
`country` column filled with `"nan"`. -/
theorem claim_C9_witness :
    processRow sampleInputRow (.parsed (.dict sampleReplyObj)) = some (mapToSchema sampleReplyObj) ∧
    (mapToSchema sampleReplyObj).map Prod.fst = COLUMNS ∧
    (mapToSchema sampleReplyObj).length = 19 ∧
    (mapToSchema sampleReplyObj).lookup "country" = some (.str "nan") := by
  have h : processRow sampleInputRow (.parsed (.dict sampleReplyObj)) =
      some (mapToSchema sampleReplyObj) := by rfl
  obtain ⟨hkeys, hlen, hnan⟩ :=
    claim_C9_schema sampleInputRow (.parsed (.dict sampleReplyObj)) (mapToSchema sampleReplyObj) h
  exact ⟨h, hkeys, hlen, hnan sampleReplyObj rfl "country" (by decide) (by rfl)⟩
